import Mathlib

/-!
Verification development for the Bengaluru restaurant-booking assistant
(`brain.py`): a shallow embedding of its dialogue orchestrator
(`process_state` / `main`), its extraction services (`detect_intent`,
`parse_date_time`, `parse_party_size`, `detect_intent_with_context`),
its search engine (`find_restaurants`) and its reservation transaction
(`add_reservation`), together with theorems settling the specification
claims about them.

Modelling conventions:
* The external language model ("oracle") is an arbitrary deterministic
  stub: a structure of functions giving, for each raw user input, the raw
  reply text (for `detect_intent`) or the already-located first balanced
  JSON object of the reply (for the JSON-based extractors).  A value of
  `JsonFetch α` records the three outcomes of the source's
  `re.search(r'\{.*\}', ...)` + `json.loads` preamble: no JSON found,
  unparsable JSON, or a parsed object.
* Python strings are Lean `String`s; all case folding / substring /
  splitting is done on `List Char` so that everything reduces in the
  kernel.  Python `str.lower` is modelled by `Char.toLower` (the data of
  this program is ASCII).
* Python `None`-able values are `Option`s.  Python truthiness tests on
  them are modelled field by field at each use site (`None`/`0`/`""` are
  falsy).  Restaurant ids are naturals (the catalog generator produces
  ids 1..20, and the LLM fallback id is JSON `number or null`); the
  sentinel `0` is identified with "no id", which is faithful because the
  source only ever tests ids for truthiness, where `None` and `0` agree.
* In-place list mutation plus `save_database` is modelled by returning
  the new catalog plus a `saved` flag.
* A Python exception escaping `process_state` (e.g. `NoneType` access)
  is the `.crash` turn result: the Streamlit script run aborts, keeping
  the session mutations already performed (state is only written back
  after a branch completes).  Exhaustion of the modelling fuel for the
  re-entrant recursion of `process_state` is the `.fuelOut` result.
-/

/-! ### String helpers (kernel-reducible models of the Python string ops) -/

/-- `str.lower()` as a character list. -/
def lowChars (s : String) : List Char := s.toList.map Char.toLower

/-- `needle in hay` (Python substring test) on already-prepared lists. -/
def infixOfB (needle : List Char) : List Char → Bool
  | [] => needle.isEmpty
  | x :: xs => needle.isPrefixOf (x :: xs) || infixOfB needle xs

/-- `needle.lower() in hay.lower()` — the substring test used throughout
`find_restaurants` and the keyword checks of `process_state`. -/
def inLower (needle hay : String) : Bool := infixOfB (lowChars needle) (lowChars hay)

/-- `str.strip()` (whitespace at both ends). -/
def trimChars (l : List Char) : List Char :=
  ((l.dropWhile Char.isWhitespace).reverse.dropWhile Char.isWhitespace).reverse

/-- Split a character list at every occurrence of `c` (like `str.split(c)`,
used to model `strptime` field separation). -/
def splitOnChar (c : Char) : List Char → List (List Char)
  | [] => [[]]
  | x :: xs =>
    let rest := splitOnChar c xs
    if x = c then [] :: rest
    else match rest with
      | [] => [[x]]
      | r :: rs => (x :: r) :: rs

/-- Parse a non-empty all-digit string into a natural number (the numeric
field parsing performed by `strptime`). -/
def parseNatDigits (l : List Char) : Option Nat :=
  if l ≠ [] ∧ l.all Char.isDigit then
    some (l.foldl (fun acc c => acc * 10 + (c.toNat - 48)) 0)
  else none

/-- Zero-pad to two digits (`%d`, `%I`, `%M` in `strftime`). -/
def pad2 (n : Nat) : String := if n < 10 then "0" ++ toString n else toString n

/-! ### Calendar arithmetic (the model of Python `datetime`) -/

/-- Gregorian leap-year test (as `calendar.isleap` / `datetime` use it). -/
def leapB (y : Nat) : Bool := y % 4 == 0 && (y % 100 != 0 || y % 400 == 0)

/-- Month lengths of a non-leap year. -/
def monthDaysN : List Nat := [31, 28, 31, 30, 31, 30, 31, 31, 30, 31, 30, 31]

/-- Days in month `m` of a year with leap status `leap`. -/
def daysInMonth (leap : Bool) (m : Nat) : Nat :=
  if leap ∧ m = 2 then 29 else monthDaysN.getD (m - 1) 0

/-- Days strictly before month `m` in a non-leap year. -/
def daysBeforeMonthN (m : Nat) : Nat := (monthDaysN.take (m - 1)).sum

/-- Days strictly before month `m`, accounting for the leap day. -/
def daysBeforeMonth (leap : Bool) (m : Nat) : Nat :=
  daysBeforeMonthN m + (if leap ∧ 3 ≤ m then 1 else 0)

/-- Proleptic-Gregorian ordinal of a date, as `datetime.date.toordinal`:
day 1 is 0001-01-01. -/
def toOrdinal (y m d : Nat) : Nat :=
  365 * (y - 1) + ((y - 1) / 4 - (y - 1) / 100 + (y - 1) / 400) +
    daysBeforeMonth (leapB y) m + d

/-- The timestamp produced by `datetime.datetime.strptime(_, "%Y-%m-%d %H:%M")`. -/
structure DateTime where
  year : Nat
  month : Nat
  day : Nat
  hour : Nat
  minute : Nat
deriving DecidableEq, Repr

/-- `datetime.weekday()`: 0 = Monday, derived from the ordinal of the date
(0001-01-01 was a Monday). -/
def pyWeekday (dt : DateTime) : Nat := (toOrdinal dt.year dt.month dt.day + 6) % 7

/-- The `weekday_names` list of `parse_date_time` (Monday first). -/
def weekdayNamesMon : List String :=
  ["Monday", "Tuesday", "Wednesday", "Thursday", "Friday", "Saturday", "Sunday"]

/-- `dt.strftime("%A")`: Python derives the `%A` name from the very same
date ordinal as `weekday()`. -/
def strftimeA (dt : DateTime) : String := weekdayNamesMon.getD (pyWeekday dt) ""

def monthNames : List String :=
  ["January", "February", "March", "April", "May", "June", "July", "August",
   "September", "October", "November", "December"]

/-- `dt.strftime("%I:%M %p")` helper: 12-hour clock value. -/
def hour12 (h : Nat) : Nat := if h % 12 = 0 then 12 else h % 12

/-- `dt.strftime("%B %d at %I:%M %p")` (used in the corrected-weekday reply). -/
def fmtMonthDayTime (dt : DateTime) : String :=
  monthNames.getD (dt.month - 1) "" ++ " " ++ pad2 dt.day ++ " at " ++
    pad2 (hour12 dt.hour) ++ ":" ++ pad2 dt.minute ++ " " ++
    (if dt.hour < 12 then "AM" else "PM")

/-- `dt.strftime("%A, %B %d at %I:%M %p")` (the confirmation replies). -/
def fmtFull (dt : DateTime) : String := strftimeA dt ++ ", " ++ fmtMonthDayTime dt

/-- `dt.strftime("%Y-%m-%d %H:%M")` (the stored reservation timestamp). -/
def fmtShort (dt : DateTime) : String :=
  toString dt.year ++ "-" ++ pad2 dt.month ++ "-" ++ pad2 dt.day ++ " " ++
    pad2 dt.hour ++ ":" ++ pad2 dt.minute

/-- `datetime.datetime.strptime(s, "%Y-%m-%d %H:%M")`: split on the single
space, the date on `-`, the time on `:`; every field must be numeric and
in range (month 1–12, day within the month, year 1–9999, hour < 24,
minute < 60), otherwise `ValueError` (here: `none`). -/
def strptimeYMDHM (s : String) : Option DateTime :=
  match splitOnChar ' ' s.toList with
  | [dpart, tpart] =>
    match splitOnChar '-' dpart with
    | [ys, ms, ds] =>
      match parseNatDigits ys, parseNatDigits ms, parseNatDigits ds with
      | some y, some mo, some d =>
        match splitOnChar ':' tpart with
        | [hs, mins] =>
          match parseNatDigits hs, parseNatDigits mins with
          | some h, some mi =>
            if 1 ≤ y ∧ y ≤ 9999 ∧ 1 ≤ mo ∧ mo ≤ 12 ∧ 1 ≤ d ∧
                d ≤ daysInMonth (leapB y) mo ∧ h < 24 ∧ mi < 60 then
              some ⟨y, mo, d, h, mi⟩
            else none
          | _, _ => none
        | _ => none
      | _, _, _ => none
    | _ => none
  | _ => none

/-! The specification's reference point for weekday correctness.
Modelled from the spec: "the standard weekday-from-date formula" against
which the service's weekday is required to agree.  We use Sakamoto's
classical formula (0 = Sunday), a definition independent of the
`toordinal`-based computation embedded from the source. -/

def sakamotoT : List Nat := [0, 3, 2, 5, 0, 3, 5, 1, 4, 6, 2, 4]

/-- Modelled from the spec: Sakamoto's standard weekday formula, 0 = Sunday. -/
def specStandardWeekday (y m d : Nat) : Nat :=
  let y' := if m < 3 then y - 1 else y
  (y' + y' / 4 - y' / 100 + y' / 400 + sakamotoT.getD (m - 1) 0 + d) % 7

def weekdayNamesSun : List String :=
  ["Sunday", "Monday", "Tuesday", "Wednesday", "Thursday", "Friday", "Saturday"]

/-- Modelled from the spec: the weekday name the standard formula assigns. -/
def specStandardWeekdayName (y m d : Nat) : String :=
  weekdayNamesSun.getD (specStandardWeekday y m d) ""

/-! ### Data model -/

/-- A reservation record as appended by `add_reservation`. -/
structure Reservation where
  id : Nat
  name : Option String
  datetime : String
  party_size : Option Int
  status : String
deriving DecidableEq, Repr

/-- A catalog restaurant (fields that the embedded logic reads; the
display-only fields `capacity`, `opening_hours`, `specialties`, `contact`
are never consumed by the orchestrator and are omitted). -/
structure Restaurant where
  id : Nat
  name : String
  cuisine : String
  location : String
  price_range : String
  rating : Rat
  seating_arrangements : List String
  address : String
  reservations : List Reservation
deriving DecidableEq, Repr

/-- The JSON object of `extract_search_params` (each field
`"extracted ... or null"`; JSON `null`/missing is `none`). -/
structure SearchParams where
  cuisine : Option String := none
  location : Option String := none
  price_range : Option String := none
  seating : Option String := none
deriving DecidableEq, Repr

/-- Outcome of the `re.search(r'\{.*\}', response)` + `json.loads` preamble
shared by all structured extractors: no JSON object in the reply,
an unparsable one, or a parsed object. -/
inductive JsonFetch (α : Type) where
  | noMatch
  | badJson
  | parsed (a : α)
deriving DecidableEq, Repr

/-- The JSON object of `parse_date_time`.  `weekdayText` stands for any
weekday wording the oracle put in its reply; the source never reads it
(only `date` and `time` are consulted). -/
structure DTJson where
  date : Option String
  time : Option String
  weekdayText : String := ""
deriving DecidableEq, Repr

/-- A Python value as `json.loads` can deliver it for one object field.
`none` covers both JSON `null` and a missing key (`dict.get` yields
`None` for either); JSON numbers keep Python's int/float distinction,
with floats modelled as exact rationals (the decimal literals of a JSON
reply are what matters here, and which values are truthy or truncate to
zero is unaffected by binary rounding); `other` stands for a JSON array
or object of the given truthiness, on which `int()` raises `TypeError`. -/
inductive PyVal where
  | none
  | int (n : Int)
  | float (q : Rat)
  | str (s : String)
  | bool (b : Bool)
  | other (truthy : Bool)
deriving DecidableEq, Repr

/-- Python truthiness of such a value (`if parsed.get('party_size'):`). -/
def pyTruthy : PyVal → Bool
  | .none => false
  | .int n => n != 0
  | .float q => q != 0
  | .str s => s != ""
  | .bool b => b
  | .other t => t

/-- Python `value == "null"` (only a string can equal a string). -/
def pyEqNullStr : PyVal → Bool
  | .str s => s == "null"
  | _ => false

/-- Python `int(s)` on a string: optional surrounding whitespace, an
optional sign, then a non-empty digit run; anything else raises
`ValueError` (`none`).  (Underscore separators and non-ASCII digits are
not modelled.) -/
def pyIntOfString (s : String) : Option Int :=
  match trimChars s.toList with
  | '+' :: rest => (parseNatDigits rest).map (fun n => (n : Int))
  | '-' :: rest => (parseNatDigits rest).map (fun n => -(n : Int))
  | l => (parseNatDigits l).map (fun n => (n : Int))

/-- Python `int(x)`: the identity on ints, truncation toward zero on
floats, string parsing, `True`/`False` to 1/0; `none` marks the raising
cases (`TypeError` on `None`, arrays and objects, `ValueError` on a
malformed string). -/
def pyInt : PyVal → Option Int
  | .none => Option.none
  | .int n => some n
  | .float q => some (q.num.tdiv (q.den : Int))
  | .str s => pyIntOfString s
  | .bool b => some (if b then 1 else 0)
  | .other _ => Option.none

/-- The JSON object of `parse_party_size` (the prompt asks for
`"party_size": number or null`, but the unreliable oracle may put any
JSON value in the field). -/
structure PSJson where
  party_size : PyVal
deriving DecidableEq, Repr

/-- The JSON object of `detect_intent_with_context`; the caller in
`process_state` only reads `restaurant_id`. -/
structure CtxJson where
  restaurant_id : Option Nat
deriving DecidableEq, Repr

/-- The four intent labels `detect_intent` can produce. -/
inductive Intent where
  | search
  | reservation
  | details
  | normal
deriving DecidableEq, Repr

/-- The conversation states of the `State` class. -/
inductive StName where
  | GREETING
  | INTENT_DETECTION
  | FIND_RESTAURANT
  | RESTAURANT_SUGGESTION
  | RESTAURANT_DETAILS
  | MAKE_RESERVATION
  | DATA_COLLECTION
  | NAME_PROMPT
  | NAME_RECEIVED
  | DATETIME_PROMPT
  | DATETIME_RECEIVED
  | PARTY_PROMPT
  | PARTY_RECEIVED
  | CONFIRM_RESERVATION
  | RESERVATION_CONFIRMED
  | DATABASE_PUSH
  | RESERVATION_SUCCESS
  | ERROR_HANDLING
  | RESERVATION_RETRY
  | SUPPORT
  | THANK_YOU
  | NORMAL_CONVERSATION
deriving DecidableEq, Repr

/-- The `reservation_info` draft of the session. -/
structure Draft where
  name : Option String
  datetime : Option DateTime
  party_size : Option Int
deriving DecidableEq, Repr

/-- One chat-history entry: `(isUser, content)`. -/
abbrev Msg := Bool × String

/-- `st.session_state`: the per-conversation mutable context. -/
structure Session where
  state : StName
  chat_history : List Msg
  current_restaurant_id : Option Nat
  reservation_info : Draft
  filtered_restaurants : List Restaurant
  last_processed_input : Option String
deriving DecidableEq, Repr

/-- The deterministic oracle stub: one function per LLM call site,
returning the raw reply (for `detect_intent`) or the extracted JSON
object (for the JSON extractors), as a function of the call's inputs. -/
structure Oracle where
  intentReply : String → String
  searchJson : String → JsonFetch SearchParams
  suggestionText : List Restaurant → List Restaurant → String
  detailsText : Option Restaurant → List Restaurant → String
  dtJson : String → JsonFetch DTJson
  partyJson : String → JsonFetch PSJson
  convReply : String → String
  ctxJson : String → List Restaurant → JsonFetch CtxJson

/-! ### Extraction services -/

/-- The keyword cascade `detect_intent` applies to the oracle's reply
(after `.strip().lower()`). -/
def classifyReply (resp : String) : Intent :=
  let r := (trimChars resp.toList).map Char.toLower
  if infixOfB "restaurant_search".toList r || infixOfB "search".toList r then .search
  else if infixOfB "reservation".toList r || infixOfB "book".toList r then .reservation
  else if infixOfB "details".toList r || infixOfB "information".toList r then .details
  else .normal

/-- `detect_intent(user_input)`. -/
def detectIntent (o : Oracle) (input : String) : Intent :=
  classifyReply (o.intentReply input)

/-- `'reserv' in user_input.lower() or 'book' in user_input.lower()` —
the lexical booking check in the suggestion and details states. -/
def hasBooking (input : String) : Bool :=
  inLower "reserv" input || inLower "book" input

/-- The affirmative check of the confirmation state. -/
def hasAffirm (input : String) : Bool :=
  inLower "yes" input || inLower "correct" input || inLower "confirm" input

/-- The retry check of the error-handling state. -/
def hasTryAgain (input : String) : Bool :=
  inLower "try" input || inLower "again" input

/-- `extract_search_params`: a parse failure of the oracle reply degrades
to the empty parameter dict `{}`. -/
def extractSearchParams (rep : JsonFetch SearchParams) : SearchParams :=
  match rep with
  | .parsed p => p
  | _ => {}

/-- `parse_date_time`, given the fetched JSON of the oracle's reply.
Returns `(timestamp?, clarification message)`; the weekday of the
timestamp is computed from the parsed date alone.  The self-check
comparing `strftime("%A")` with `weekday_names[dt.weekday()]` is embedded
as in the source (both sides derive from the date's ordinal, so the
corrected-confirmation branch never fires). -/
def parseDateTimeSvc (rep : JsonFetch DTJson) : Option DateTime × String :=
  match rep with
  | .noMatch =>
    (none, "I couldn't parse that. Please specify when you'd like to make your reservation.")
  | .badJson =>
    (none, "I'm having trouble understanding the date and time. Please use a format like 'tomorrow at 7 PM'.")
  | .parsed p =>
    match p.date, p.time with
    | some d, some t =>
      if d ≠ "" ∧ t ≠ "" ∧ d ≠ "null" ∧ t ≠ "null" then
        match strptimeYMDHM (d ++ " " ++ t) with
        | some dt =>
          if strftimeA dt ≠ weekdayNamesMon.getD (pyWeekday dt) "" then
            (some dt, "Got it! Reservation for " ++ weekdayNamesMon.getD (pyWeekday dt) "" ++
              ", " ++ fmtMonthDayTime dt ++ ".")
          else (some dt, "")
        | none => (none, "I couldn't understand that date format. Please specify a date and time.")
      else (none, "I couldn't determine the date or time. Please specify both.")
    | _, _ => (none, "I couldn't determine the date or time. Please specify both.")

/-- `parse_party_size`, given the fetched JSON.  The guard
`parsed.get('party_size') and parsed['party_size'] != "null"` is a
truthiness test plus a string comparison, after which the raw value goes
through `int(...)` — whose `ValueError`/`TypeError` is caught by the
function's outer `except`.  Note that a truthy value may still convert
to zero (`int(0.5)`, `int("0")`), which is then returned with an empty
message. -/
def parsePartySvc (rep : JsonFetch PSJson) : Option Int × String :=
  match rep with
  | .noMatch =>
    (none, "I couldn't parse that. Please specify how many people are in your party.")
  | .badJson =>
    (none, "I'm having trouble understanding the party size. Please tell me how many people will be dining.")
  | .parsed p =>
    if pyTruthy p.party_size && !pyEqNullStr p.party_size then
      match pyInt p.party_size with
      | some n => (some n, "")
      | none =>
        (none, "I'm having trouble understanding the party size. Please tell me how many people will be dining.")
    else (none, "I couldn't determine the party size. How many people will be dining?")

/-! ### Search engine -/

/-- Descending-by-rating comparison used for `filtered.sort(key=lambda x:
x['rating'], reverse=True)` (a stable sort, like Python's). -/
def ratingGe (a b : Restaurant) : Bool := decide (b.rating ≤ a.rating)

/-- `find_restaurants(params, restaurants)`: conjunctive filtering by
lower-cased substring tests (location also against the address, seating
against any tag), then top-5 by rating if more than 5 remain, and the
top-3 of the whole catalog if none remain. -/
def findRestaurants (params : SearchParams) (restaurants : List Restaurant) :
    List Restaurant :=
  let f0 : List Restaurant := restaurants
  let f1 : List Restaurant := match params.cuisine with
    | some c => if c ≠ "" ∧ c ≠ "null" then
        f0.filter (fun r => inLower c r.cuisine) else f0
    | none => f0
  let f2 : List Restaurant := match params.location with
    | some loc => if loc ≠ "" ∧ loc ≠ "null" then
        f1.filter (fun r => inLower loc r.location || inLower loc r.address) else f1
    | none => f1
  let f3 : List Restaurant := match params.price_range with
    | some pr => if pr ≠ "" ∧ pr ≠ "null" then
        f2.filter (fun r => inLower pr r.price_range) else f2
    | none => f2
  let f4 : List Restaurant := match params.seating with
    | some st => if st ≠ "" ∧ st ≠ "null" then
        f3.filter (fun r => r.seating_arrangements.any (fun s => inLower st s)) else f3
    | none => f3
  if 5 < f4.length then (f4.mergeSort ratingGe).take 5
  else if f4 = [] then (restaurants.mergeSort ratingGe).take 3
  else f4

/-! ### Reservation transaction -/

/-- `add_reservation(restaurants, restaurant_id, name, datetime_obj,
party_size)`: find the first restaurant whose id equals `restaurant_id`;
if found, build the record (local id = current list length + 1, status
`"confirmed"`), append it and persist (`saved = true` models the
`save_database` call); otherwise return `(False, None)` untouched.
Building the record evaluates `datetime_obj.strftime(...)`, which raises
(`.error`) when the draft's datetime is `None` — that can only happen on
the found path. -/
def addReservation (restaurants : List Restaurant) (rid : Option Nat)
    (name : Option String) (dt : Option DateTime) (ps : Option Int) :
    Except Unit (Bool × Option Reservation × List Restaurant × Bool) :=
  match restaurants with
  | [] => .ok (false, none, [], false)
  | r :: rest =>
    if some r.id = rid then
      match dt with
      | none => .error ()
      | some dtv =>
        let resv : Reservation :=
          ⟨r.reservations.length + 1, name, fmtShort dtv, ps, "confirmed"⟩
        .ok (true, some resv, { r with reservations := r.reservations ++ [resv] } :: rest, true)
    else
      match addReservation rest rid name dt ps with
      | .error () => .error ()
      | .ok (b, rv, rest', sv) => .ok (b, rv, r :: rest', sv)

/-! ### Dialogue orchestrator -/

/-- Result kind of one physical turn of `process_state`:
a reply string, an uncaught Python exception, or exhaustion of the
modelling fuel for the re-entrant recursion. -/
inductive TRes where
  | reply (r : String)
  | crash
  | fuelOut
deriving DecidableEq, Repr

/-- The full observable outcome of a `process_state` call: the session
after the call, the catalog after it, whether `save_database` ran, and
the result kind. -/
structure Turn where
  sess : Session
  cat : List Restaurant
  saved : Bool
  res : TRes
deriving DecidableEq, Repr

/-- Intermediate result of one pass of the `process_state` body, before
the final state write-back / re-entrancy check: either an exception
escaped mid-branch (the state write-back at the end of `process_state`
has NOT happened), or the branch completed with the mutated session,
possibly-updated catalog, save flag, chosen `next_state` and `response`. -/
inductive Pass where
  | crashAt (s : Session)
  | go (s : Session) (cat : List Restaurant) (saved : Bool)
       (nextState : Option StName) (response : Option String)

/-- `st.session_state.current_restaurant_id` truthiness. -/
def truthyId : Option Nat → Bool
  | some n => n != 0
  | none => false

/-- The direct name match of the suggestion state: the first stored
suggestion whose lower-cased name occurs in the lower-cased input; `0`
is the shared falsy sentinel for "no match" (see module comment). -/
def firstNameMatch (filtered : List Restaurant) (input : String) : Nat :=
  match filtered.find? (fun r => inLower r.name input) with
  | some r => r.id
  | none => 0

/-- The final `response or "I'm not sure..."` of `process_state`:
`None` and the empty string are both falsy in Python. -/
def defaultReply : String :=
  "I'm not sure what you're looking for. Would you like to search for restaurants or make a reservation?"

def finalizeReply : Option String → String
  | some r => if r = "" then defaultReply else r
  | none => defaultReply

/-- One pass of the `if current_state == ... / elif ...` chain of
`process_state`, mirroring the source branch by branch. -/
def stepPass (o : Oracle) (s : Session) (input : String)
    (cat : List Restaurant) : Pass :=
  match s.state with
  | .INTENT_DETECTION =>
    match detectIntent o input with
    | .search => .go s cat false (some .FIND_RESTAURANT) none
    | .reservation =>
      if truthyId s.current_restaurant_id then
        .go s cat false (some .MAKE_RESERVATION)
          (some "Great! Let's make a reservation. Under what name should I make the reservation?")
      else
        .go s cat false (some .FIND_RESTAURANT)
          (some "I'd be happy to help you make a reservation. First, let's find a restaurant. Do you have any preferences for cuisine, location, or price range?")
    | .details =>
      if truthyId s.current_restaurant_id then
        .go s cat false (some .RESTAURANT_DETAILS) none
      else
        .go s cat false (some .FIND_RESTAURANT)
          (some "I'd be happy to provide details about a restaurant. Which restaurant are you interested in?")
    | .normal =>
      .go s cat false (some .NORMAL_CONVERSATION) (some (o.convReply input))
  | .FIND_RESTAURANT =>
    let params := extractSearchParams (o.searchJson input)
    let filtered := findRestaurants params cat
    .go { s with filtered_restaurants := filtered } cat false
      (some .RESTAURANT_SUGGESTION) (some (o.suggestionText filtered cat))
  | .RESTAURANT_SUGGESTION =>
    let direct := firstNameMatch s.filtered_restaurants input
    match (if direct ≠ 0 then some direct else none) with
    | some rid => suggestionMatched s cat input rid
    | none =>
      -- fall back to `detect_intent_with_context`; inside its `try`, a
      -- reply with no JSON object returns Python `None`, and the caller's
      -- `intent_data.get(...)` then raises; a JSON parse error is caught
      -- and yields the fallback dict (restaurant_id None)
      match o.ctxJson input s.filtered_restaurants with
      | .noMatch => .crashAt s
      | .badJson => suggestionUnmatched s cat input
      | .parsed c =>
        match c.restaurant_id with
        | some rid => if rid ≠ 0 then suggestionMatched s cat input rid
                      else suggestionUnmatched s cat input
        | none => suggestionUnmatched s cat input
  | .RESTAURANT_DETAILS =>
    let intent := detectIntent o input
    if hasBooking input || intent = .reservation then
      .go s cat false (some .MAKE_RESERVATION)
        (some "Great! I'd be happy to make a reservation for you. Under what name should I make the reservation?")
    else
      .go s cat false (some .INTENT_DETECTION) none
  | .MAKE_RESERVATION =>
    .go s cat false (some .NAME_PROMPT) (some "Under what name should I make the reservation?")
  | .NAME_PROMPT =>
    .go { s with reservation_info := { s.reservation_info with name := some input } }
      cat false (some .DATETIME_PROMPT)
      (some ("Thank you, " ++ input ++ ". When would you like to make your reservation? Please specify the date and time."))
  | .DATETIME_PROMPT =>
    match parseDateTimeSvc (o.dtJson input) with
    | (some dt, _) =>
      .go { s with reservation_info := { s.reservation_info with datetime := some dt } }
        cat false (some .PARTY_PROMPT)
        (some ("Got it! Reservation for " ++ fmtFull dt ++ ". How many people will be in your party?"))
    | (none, errMsg) => .go s cat false none (some errMsg)
  | .PARTY_PROMPT =>
    match parsePartySvc (o.partyJson input) with
    | (some n, _) =>
      if n ≠ 0 then
        let s' := { s with reservation_info := { s.reservation_info with party_size := some n } }
        let rname := match cat.find? (fun r => some r.id = s.current_restaurant_id) with
          | some r => r.name
          | none => "the restaurant"
        -- the summary formats the stored datetime; `None.strftime` raises
        match s.reservation_info.datetime with
        | some dt =>
          .go s' cat false (some .CONFIRM_RESERVATION)
            (some ("Great! Let me confirm your reservation:\n\nName: " ++
              (s.reservation_info.name.getD "None") ++ "\nRestaurant: " ++ rname ++
              "\nDate & Time: " ++ fmtFull dt ++ "\nParty Size: " ++ toString n ++
              " people\n\nIs this information correct? (yes/no)"))
        | none => .crashAt s'
      else .go s cat false none (some (parsePartySvc (o.partyJson input)).2)
    | (none, errMsg) => .go s cat false none (some errMsg)
  | .CONFIRM_RESERVATION =>
    if hasAffirm input then
      .go s cat false (some .RESERVATION_CONFIRMED)
        (some "Thank you for confirming. I'm processing your reservation now...")
    else
      .go s cat false (some .MAKE_RESERVATION)
        (some "Let's try again. Under what name should I make the reservation?")
  | .RESERVATION_CONFIRMED =>
    -- next_state = DATABASE_PUSH, immediately superseded by the branch below
    match addReservation cat s.current_restaurant_id s.reservation_info.name
        s.reservation_info.datetime s.reservation_info.party_size with
    | .error () => .crashAt s
    | .ok (true, _, cat', sv) =>
      let rname := match cat'.find? (fun r => some r.id = s.current_restaurant_id) with
        | some r => r.name
        | none => "the restaurant"
      match s.reservation_info.datetime with
      | some dt =>
        .go s cat' sv (some .RESERVATION_SUCCESS)
          (some ("Your reservation at " ++ rname ++ " has been confirmed! We look forward to serving you on " ++
            fmtFull dt ++ ". Is there anything else you would like to know?"))
      | none => .crashAt s
    | .ok (false, _, _, _) =>
      .go s cat false (some .ERROR_HANDLING)
        (some "I'm sorry, there was an error processing your reservation. Would you like to try again or speak with customer support?")
  | .ERROR_HANDLING =>
    if hasTryAgain input then
      .go s cat false (some .RESERVATION_RETRY)
        (some "Let's try making your reservation again. Under what name should I make the reservation?")
    else
      .go s cat false (some .SUPPORT)
        (some "I'll connect you with customer support. Please call +91 80 12345678 during business hours (9 AM - 6 PM) for assistance with your reservation.")
  | .RESERVATION_RETRY =>
    .go s cat false (some .MAKE_RESERVATION)
      (some "Let's start over with your reservation. Under what name should I make the reservation?")
  | .SUPPORT =>
    .go s cat false (some .INTENT_DETECTION)
      (some "Our customer support team is available to help you. Is there anything else I can assist you with?")
  | .RESERVATION_SUCCESS =>
    .go s cat false (some .THANK_YOU)
      (some "Thank you for using Alfred! Your reservation has been confirmed. Is there anything else you would like assistance with?")
  | .THANK_YOU => .go s cat false (some .INTENT_DETECTION) none
  | .NORMAL_CONVERSATION => .go s cat false (some .INTENT_DETECTION) none
  | _ => .go s cat false none none
where
  /-- The `if restaurant_id:` branch of the suggestion state: store the
  match; with booking language go to the reservation flow (formatting the
  reply dereferences the looked-up restaurant, raising when the id is not
  in the catalog), otherwise reply with generated details. -/
  suggestionMatched (s : Session) (cat : List Restaurant) (input : String)
      (rid : Nat) : Pass :=
    let s' := { s with current_restaurant_id := some rid }
    let found := cat.find? (fun r => some r.id = s'.current_restaurant_id)
    if hasBooking input then
      match found with
      | some r =>
        .go s' cat false (some .MAKE_RESERVATION)
          (some ("Great! I'll make a reservation at " ++ r.name ++ " for you. Under what name should I make the reservation?"))
      | none => .crashAt s'
    else
      .go s' cat false (some .RESTAURANT_DETAILS)
        (some (o.detailsText found cat))
  /-- The no-match tail of the suggestion state. -/
  suggestionUnmatched (s : Session) (cat : List Restaurant) (input : String) : Pass :=
    if hasBooking input then
      .go s cat false none
        (some "Which of these restaurants would you like to make a reservation for? Please specify the restaurant name clearly.")
    else
      .go s cat false (some .INTENT_DETECTION) none

/-- `process_state(user_input, restaurants)` with explicit fuel for the
re-entrant recursion: run one pass, write the next state back, and if the
pass produced no response while changing the state, immediately reprocess
the same input against the new state. -/
def processState (o : Oracle) : Nat → Session → String → List Restaurant → Turn
  | 0, s, _, cat => ⟨s, cat, false, .fuelOut⟩
  | fuel + 1, s, input, cat =>
    match stepPass o s input cat with
    | .crashAt s' => ⟨s', cat, false, .crash⟩
    | .go s' cat' saved ns resp =>
      let s'' := match ns with
        | some st => { s' with state := st }
        | none => s'
      match resp, ns with
      | none, some st =>
        if st ≠ s.state then processState o fuel s'' input cat'
        else ⟨s'', cat', saved, .reply (finalizeReply none)⟩
      | _, _ => ⟨s'', cat', saved, .reply (finalizeReply resp)⟩

/-- The one-time greeting bootstrap at the top of `main` (outside the FSM
proper): on the very first run, emit the greeting and enter
intent detection. -/
def greetingMsg : String :=
  "Hello! I'm Alfred, your Bengaluru restaurant assistant. I can help you find restaurants and make reservations. What are you looking for today?"

def bootstrap (s : Session) : Session :=
  if s.state = .GREETING ∧ s.chat_history = [] then
    { s with chat_history := [(false, greetingMsg)], state := .INTENT_DETECTION }
  else s

/-- Observable outcome of one `main` turn: the session and catalog after
the run, whether `process_state` was invoked at all, whether a commit was
persisted, and the reply appended to the history (none on crash/fuel-out). -/
structure SubmitOut where
  sess : Session
  cat : List Restaurant
  processed : Bool
  saved : Bool
  reply : Option String
deriving DecidableEq, Repr

/-- The processed path of a `main` turn: record the input as
last-processed, append it to the history, run `process_state` and append
its reply (no assistant entry is appended when the run aborts). -/
def processedTurn (o : Oracle) (fuel : Nat) (s0 : Session) (input : String)
    (cat : List Restaurant) : SubmitOut :=
  let s1 := { s0 with last_processed_input := some input,
                      chat_history := s0.chat_history ++ [(true, input)] }
  let t := processState o fuel s1 input cat
  match t.res with
  | .reply r =>
    ⟨{ t.sess with chat_history := t.sess.chat_history ++ [(false, r)] },
      t.cat, true, t.saved, some r⟩
  | _ => ⟨t.sess, t.cat, true, t.saved, none⟩

/-- The turn-handling tail of `main`: the greeting bootstrap, then —
only when the input is truthy and differs from the last processed input —
the processed path. -/
def submitTurn (o : Oracle) (fuel : Nat) (s : Session) (input : String)
    (cat : List Restaurant) : SubmitOut :=
  let s0 := bootstrap s
  if input ≠ "" ∧ s0.last_processed_input ≠ some input then
    processedTurn o fuel s0 input cat
  else ⟨s0, cat, false, false, none⟩

/-- The session as initialised by `main` before the first turn. -/
def initialSession : Session :=
  { state := .GREETING
    chat_history := []
    current_restaurant_id := none
    reservation_info := { name := none, datetime := none, party_size := none }
    filtered_restaurants := []
    last_processed_input := none }

/-- Sessions reachable by the orchestrator from start-up, across any
sequence of turns, with arbitrary oracle behaviour, inputs, fuel and
catalog contents per turn. -/
inductive Reach : Session → Prop where
  | init : Reach initialSession
  | step (s : Session) (o : Oracle) (fuel : Nat) (input : String)
      (cat : List Restaurant) : Reach s → Reach (submitTurn o fuel s input cat).sess

/-! ### Shared concrete data for witnesses and counterexamples -/

/-- A small concrete catalog entry (shaped like the generated seed data). -/
def sampleRest : Restaurant :=
  { id := 1, name := "Spice Garden", cuisine := "South Indian",
    location := "Indiranagar", price_range := "1000-1500", rating := 4,
    seating_arrangements := ["Indoor", "Outdoor"],
    address := "12, Main, Indiranagar, Bengaluru", reservations := [] }

/-- A second entry that already holds one reservation. -/
def sampleRest2 : Restaurant :=
  { id := 2, name := "Brigade Bistro", cuisine := "Italian",
    location := "Brigade Road", price_range := "2000-2500", rating := 4,
    seating_arrangements := ["Rooftop"],
    address := "7, Cross, Brigade Road, Bengaluru",
    reservations := [⟨1, some "Ravi", "2025-05-01 20:00", some 2, "confirmed"⟩] }

def sampleCat : List Restaurant := [sampleRest, sampleRest2]

/-! ### C2 — reservation ids are per-restaurant, 1-based, increasing -/

/-- Helper: `add_reservation` on the found path, phrased against the first
catalog entry whose id matches (the Python `for`/`break` target). -/
theorem addReservation_found (cat : List Restaurant) (rid : Nat)
    (nm : Option String) (dt : DateTime) (ps : Option Int) (r : Restaurant)
    (h : cat.find? (fun x => x.id == rid) = some r) :
    ∃ pre post,
      cat = pre ++ r :: post ∧
      (∀ x ∈ pre, x.id ≠ rid) ∧ r.id = rid ∧
      addReservation cat (some rid) nm (some dt) ps =
        .ok (true, some ⟨r.reservations.length + 1, nm, fmtShort dt, ps, "confirmed"⟩,
             pre ++ { r with reservations :=
               r.reservations ++ [⟨r.reservations.length + 1, nm, fmtShort dt, ps, "confirmed"⟩] } :: post,
             true) := by
  induction cat with
  | nil => simp at h
  | cons x rest ih =>
    rw [List.find?_cons] at h
    rcases hx : (x.id == rid) with _ | _
    · rw [hx] at h
      simp only at h
      obtain ⟨pre, post, hcat, hpre, hrid, hadd⟩ := ih h
      have hxne : x.id ≠ rid := by simpa using hx
      refine ⟨x :: pre, post, by rw [hcat, List.cons_append], ?_, hrid, ?_⟩
      · intro y hy
        rcases List.mem_cons.mp hy with rfl | hy'
        · exact hxne
        · exact hpre y hy'
      · have hne : ¬ (some x.id = some rid) := by simpa using hxne
        simp only [addReservation, hne, if_false, hadd, List.cons_append]
    · rw [hx] at h
      simp only [Option.some.injEq] at h
      subst h
      have hid : x.id = rid := by simpa using hx
      refine ⟨[], rest, rfl, by simp, hid, ?_⟩
      simp [addReservation, hid]

/-- C2: a successful commit of the reservation transaction against the
(first) restaurant with the matched id assigns the new record the id
`count(existing reservations) + 1` and status `"confirmed"`, and a second
successful commit against the same restaurant gets exactly the next id —
ids are 1-based and strictly increasing per restaurant, independent of
any other restaurant's list. -/
theorem c2_reservation_ids (cat : List Restaurant) (rid : Nat)
    (nm nm2 : Option String) (dt dt2 : DateTime) (ps ps2 : Option Int)
    (r : Restaurant) (h : cat.find? (fun x => x.id == rid) = some r) :
    ∃ resv cat',
      addReservation cat (some rid) nm (some dt) ps =
        .ok (true, some resv, cat', true) ∧
      resv.id = r.reservations.length + 1 ∧ resv.status = "confirmed" ∧
      ∃ resv2 cat'',
        addReservation cat' (some rid) nm2 (some dt2) ps2 =
          .ok (true, some resv2, cat'', true) ∧
        resv2.id = resv.id + 1 ∧ resv2.status = "confirmed" := by
  obtain ⟨pre, post, hcat, hpre, hrid, hadd⟩ := addReservation_found cat rid nm dt ps r h
  set r' : Restaurant := { r with reservations :=
    r.reservations ++ [⟨r.reservations.length + 1, nm, fmtShort dt, ps, "confirmed"⟩] } with hr'
  have hfind2 : (pre ++ r' :: post).find? (fun x => x.id == rid) = some r' := by
    rw [List.find?_append]
    have h1 : pre.find? (fun x => x.id == rid) = none := by
      rw [List.find?_eq_none]
      intro x hx
      simpa using hpre x hx
    rw [h1]
    simp [List.find?_cons, hr', hrid]
  obtain ⟨pre2, post2, _, _, _, hadd2⟩ :=
    addReservation_found (pre ++ r' :: post) rid nm2 dt2 ps2 r' hfind2
  refine ⟨_, _, hadd, rfl, rfl, _, _, hadd2, ?_, rfl⟩
  simp [hr']

/-- Witness for C2 at a concrete catalog: on `sampleCat`, restaurant 2
already holds one reservation, so its next two commits get ids 2 and 3. -/
theorem c2_witness :
    sampleCat.find? (fun x => x.id == 2) = some sampleRest2 ∧
    ∃ resv cat',
      addReservation sampleCat (some 2) (some "Asha") (some ⟨2025, 6, 14, 19, 30⟩) (some 4) =
        .ok (true, some resv, cat', true) ∧
      resv.id = sampleRest2.reservations.length + 1 ∧ resv.status = "confirmed" ∧
      ∃ resv2 cat'',
        addReservation cat' (some 2) (some "Ravi") (some ⟨2025, 6, 15, 20, 0⟩) (some 2) =
          .ok (true, some resv2, cat'', true) ∧
        resv2.id = resv.id + 1 ∧ resv2.status = "confirmed" :=
  ⟨by decide,
   c2_reservation_ids sampleCat 2 (some "Asha") (some "Ravi") ⟨2025, 6, 14, 19, 30⟩
     ⟨2025, 6, 15, 20, 0⟩ (some 4) (some 2) sampleRest2 (by decide)⟩

/-! ### C3 — absent restaurant id: failure without side effects -/

/-- C3: when no catalog restaurant carries the requested id, the
transaction returns `(False, None)`, the catalog is returned exactly
unchanged, and nothing is persisted. -/
theorem c3_absent_id_atomic (cat : List Restaurant) (rid : Nat)
    (nm : Option String) (dt : Option DateTime) (ps : Option Int)
    (h : ∀ r ∈ cat, r.id ≠ rid) :
    addReservation cat (some rid) nm dt ps = .ok (false, none, cat, false) := by
  induction cat with
  | nil => rfl
  | cons r rest ih =>
    have hr : ¬ (some r.id = some rid) := by
      simpa using h r (List.mem_cons_self r rest)
    have ih' := ih (fun x hx => h x (List.mem_cons_of_mem r hx))
    simp [addReservation, hr, ih']

/-- Witness for C3: id 7 is absent from `sampleCat`. -/
theorem c3_witness :
    (∀ r ∈ sampleCat, r.id ≠ 7) ∧
    addReservation sampleCat (some 7) (some "Asha") (some ⟨2025, 6, 14, 19, 30⟩) (some 4) =
      .ok (false, none, sampleCat, false) :=
  ⟨by decide,
   c3_absent_id_atomic sampleCat 7 (some "Asha") (some ⟨2025, 6, 14, 19, 30⟩) (some 4) (by decide)⟩

/-! ### C5 — `find_restaurants` never returns empty on a non-empty catalog -/

/-- Helper: the empty catalog filters to the empty list. -/
theorem findRestaurants_nil (params : SearchParams) :
    findRestaurants params [] = [] := by
  rcases params with ⟨c, l, p, sg⟩
  unfold findRestaurants
  rcases c with _ | c <;> rcases l with _ | l <;> rcases p with _ | p <;>
    rcases sg with _ | sg <;> simp

/-- Helper: the post-filter policy of `find_restaurants` never produces
the empty list from a non-empty catalog. -/
theorem post_policy_ne_nil (cat L : List Restaurant) (hcat : cat ≠ []) :
    (if 5 < L.length then (L.mergeSort ratingGe).take 5
     else if L = [] then (cat.mergeSort ratingGe).take 3 else L) ≠ [] := by
  split_ifs with h5 h0
  · apply List.ne_nil_of_length_pos
    rw [List.length_take, List.length_mergeSort]
    omega
  · apply List.ne_nil_of_length_pos
    rw [List.length_take, List.length_mergeSort]
    have := List.length_pos_of_ne_nil hcat
    omega
  · exact h0

/-- C5: on a non-empty catalog the search engine always returns a
non-empty result (zero post-filter matches fall back to the top-3 of the
whole catalog), and the empty catalog is the only empty-result input. -/
theorem c5_find_nonempty :
    (∀ (params : SearchParams) (cat : List Restaurant),
      cat ≠ [] → findRestaurants params cat ≠ []) ∧
    (∀ params : SearchParams, findRestaurants params [] = []) := by
  constructor
  · intro params cat hcat
    simp only [findRestaurants]
    exact post_policy_ne_nil cat _ hcat
  · exact findRestaurants_nil

/-- Witness for C5 on a concrete non-empty catalog and query. -/
theorem c5_witness :
    sampleCat ≠ [] ∧
    findRestaurants { cuisine := some "Italian" } sampleCat ≠ [] :=
  ⟨by decide, c5_find_nonempty.1 { cuisine := some "Italian" } sampleCat (by decide)⟩

/-! ### C8 — party-size extractor -/

/-- The rational 1/2, standing for the JSON float 0.5. -/
def halfRat : Rat := ⟨1, 2, by norm_num, by norm_num⟩

/-- Counterexample to C8 as stated: an oracle-reported party size of `-3`
is truthy in Python, so `parse_party_size` returns the negative number
`-3`; worse, the truthy values `0.5` and `"0"` pass the guard and
`int(...)` maps them to `0`, so ZERO is returned — with an EMPTY
message, not a clarification.  Both halves of the claim fail: a reported
zero does not always yield absent, and non-positive integers are
returned. -/
theorem c8_counterexample :
    (parsePartySvc (.parsed ⟨.int (-3)⟩)).1 = some (-3) ∧ (-3 : Int) < 0 ∧
    parsePartySvc (.parsed ⟨.float halfRat⟩) = (some 0, "") ∧
    parsePartySvc (.parsed ⟨.str "0"⟩) = (some 0, "") := by
  refine ⟨rfl, by decide, ?_, ?_⟩ <;> rfl

/-- C8 (amended): the extractor returns an integer or absent and never
raises.  A falsy reported size — the number 0 (int or float), `null`, a
missing field, `false` or the empty string — and every unparsable reply
yield absent plus a non-empty clarification message; an oracle-reported
INTEGER is returned exactly when it is nonzero (so for integer-valued
replies absence still coincides with zero/null).  But no positivity is
guaranteed: negative integers pass through, and a truthy non-integer
value that Python's `int()` maps to zero (such as `0.5` or the string
`"0"`) is returned as `0` with an empty message. -/
theorem c8_amended :
    (∀ rep : JsonFetch PSJson,
      (parsePartySvc rep).1 = none → (parsePartySvc rep).2 ≠ "") ∧
    (∀ p : PSJson, pyTruthy p.party_size = false →
      (parsePartySvc (.parsed p)).1 = none ∧ (parsePartySvc (.parsed p)).2 ≠ "") ∧
    (∀ (p : PSJson) (n : Int), p.party_size = .int n → n ≠ 0 →
      parsePartySvc (.parsed p) = (some n, "")) ∧
    (∀ (p : PSJson) (n m : Int), p.party_size = .int n →
      (parsePartySvc (.parsed p)).1 = some m → m = n ∧ n ≠ 0) := by
  refine ⟨?_, ?_, ?_, ?_⟩
  · intro rep h
    rcases rep with _ | _ | ⟨v⟩
    · simp [parsePartySvc]
    · simp [parsePartySvc]
    · simp only [parsePartySvc] at h ⊢
      split_ifs at h ⊢ with hc
      · rcases hpi : pyInt v.party_size with _ | n
        · simp only [hpi]
          simp
        · simp [hpi] at h
      · simp
  · intro p h
    rcases p with ⟨v⟩
    simp only at h
    simp [parsePartySvc, h]
  · intro p n hp hn
    rcases p with ⟨v⟩
    simp only at hp
    subst hp
    simp [parsePartySvc, pyTruthy, pyEqNullStr, pyInt, hn]
  · intro p n m hp h
    rcases p with ⟨v⟩
    simp only at hp
    subst hp
    by_cases hn : n = 0
    · subst hn
      simp [parsePartySvc, pyTruthy, pyEqNullStr] at h
    · simp [parsePartySvc, pyTruthy, pyEqNullStr, pyInt, hn] at h
      exact ⟨h.symm, hn⟩

/-- Witness for C8 (amended) at concrete oracle replies. -/
theorem c8_amended_witness :
    (parsePartySvc .noMatch).2 ≠ "" ∧
    ((parsePartySvc (.parsed ⟨.int 0⟩)).1 = none ∧
     (parsePartySvc (.parsed ⟨.int 0⟩)).2 ≠ "") ∧
    parsePartySvc (.parsed ⟨.int 4⟩) = (some 4, "") ∧
    parsePartySvc (.parsed ⟨.int (-3)⟩) = (some (-3), "") ∧
    ((4 : Int) = 4 ∧ (4 : Int) ≠ 0) :=
  ⟨c8_amended.1 .noMatch (by decide),
   c8_amended.2.1 ⟨.int 0⟩ (by decide),
   c8_amended.2.2.1 ⟨.int 4⟩ 4 rfl (by decide),
   c8_amended.2.2.1 ⟨.int (-3)⟩ (-3) rfl (by decide),
   c8_amended.2.2.2 ⟨.int 4⟩ 4 4 rfl (by decide)⟩

/-! ### C6 — the weekday of a parsed date-time is calendar-correct -/

theorem leapB_iff (y : Nat) :
    leapB y = true ↔ (y % 4 = 0 ∧ (y % 100 ≠ 0 ∨ y % 400 = 0)) := by
  simp [leapB]

/-- One year of the `toordinal` leap-day count matches the leap-year test. -/
theorem div_chain (n : Nat) :
    (n + 1) / 4 - (n + 1) / 100 + (n + 1) / 400 =
      (n / 4 - n / 100 + n / 400) + (if leapB (n + 1) then 1 else 0) := by
  rw [Nat.succ_div, Nat.succ_div, Nat.succ_div]
  cases hL : leapB (n + 1) with
  | false =>
    have h : ¬ ((n + 1) % 4 = 0 ∧ ((n + 1) % 100 ≠ 0 ∨ (n + 1) % 400 = 0)) := by
      rw [← leapB_iff, hL]; simp
    push_neg at h
    simp only [Bool.false_eq_true, if_false]
    split_ifs <;> omega
  | true =>
    obtain ⟨h4', hd⟩ := (leapB_iff _).mp hL
    simp only [if_true]
    rcases hd with hd | hd <;> (split_ifs <;> omega)

/-- The `toordinal`-based weekday agrees, modulo 7, with Sakamoto's
standard weekday formula, for every valid month of every year. -/
theorem ord_cong (y m d : Nat) (hy : 1 ≤ y) (hm1 : 1 ≤ m) (hm2 : m ≤ 12) :
    (toOrdinal y m d + 6) % 7 = (specStandardWeekday y m d + 6) % 7 := by
  obtain ⟨n, rfl⟩ : ∃ n, y = n + 1 := ⟨y - 1, by omega⟩
  have hch := div_chain n
  unfold toOrdinal specStandardWeekday
  simp only [Nat.add_sub_cancel]
  interval_cases m <;>
    · simp only [daysBeforeMonth, daysBeforeMonthN, monthDaysN, sakamotoT,
        List.take, List.sum_cons, List.sum_nil, List.getD, List.get?,
        List.getD_cons_zero, List.getD_cons_succ]
      norm_num
      cases hL : leapB (n + 1) <;> simp only [hL, if_true, if_false] at hch ⊢ <;> omega

/-- Index shift between the Monday-first name table of the source and the
Sunday-first table of the standard formula. -/
theorem names_shift (k : Nat) (hk : k < 7) :
    weekdayNamesMon.getD ((k + 6) % 7) "" = weekdayNamesSun.getD k "" := by
  interval_cases k <;> rfl

/-- A timestamp produced by `strptime` has a valid year and month. -/
theorem strptime_valid {s : String} {dt : DateTime}
    (h : strptimeYMDHM s = some dt) :
    1 ≤ dt.year ∧ 1 ≤ dt.month ∧ dt.month ≤ 12 := by
  unfold strptimeYMDHM at h
  repeat' split at h
  all_goals try exact Option.noConfusion h
  rename_i hc
  injection h with h'
  subst h'
  exact ⟨hc.1, hc.2.2.1, hc.2.2.2.1⟩

/-- A timestamp returned by the date-time extractor comes from `strptime`. -/
theorem parse_dt_strptime {rep : JsonFetch DTJson} {dt : DateTime}
    (h : (parseDateTimeSvc rep).1 = some dt) :
    ∃ s, strptimeYMDHM s = some dt := by
  unfold parseDateTimeSvc at h
  repeat' split at h
  all_goals simp at h
  all_goals rw [← h]
  all_goals exact ⟨_, by assumption⟩

/-- C6: whenever the date-time extractor parses a concrete date and time
out of an oracle reply, the weekday name of the returned timestamp equals
the standard weekday-from-date calendar computation (Sakamoto's formula)
for that date; and the extractor's output is a function of the reply's
`date` and `time` fields alone — any weekday text the oracle asserted is
ignored. -/
theorem c6_weekday :
    (∀ (rep : JsonFetch DTJson) (dt : DateTime),
      (parseDateTimeSvc rep).1 = some dt →
      strftimeA dt = specStandardWeekdayName dt.year dt.month dt.day) ∧
    (∀ p q : DTJson, p.date = q.date → p.time = q.time →
      parseDateTimeSvc (.parsed p) = parseDateTimeSvc (.parsed q)) := by
  constructor
  · intro rep dt h
    obtain ⟨s, hs⟩ := parse_dt_strptime h
    obtain ⟨hy, hm1, hm2⟩ := strptime_valid hs
    have hcong := ord_cong dt.year dt.month dt.day hy hm1 hm2
    unfold strftimeA specStandardWeekdayName pyWeekday
    rw [hcong]
    exact names_shift _ (Nat.mod_lt _ (by norm_num))
  · intro p q hd ht
    rcases p with ⟨pd, pt, pw⟩
    rcases q with ⟨qd, qt, qw⟩
    simp only at hd ht
    subst hd
    subst ht
    rfl

/-- Witness for C6 on the spec's concrete pair ("2025-06-14", "19:30"):
the oracle-asserted weekday "Friday" is overridden — the computed name is
Saturday on both the source side and the standard-formula side. -/
theorem c6_weekday_witness :
    (parseDateTimeSvc (.parsed ⟨some "2025-06-14", some "19:30", "Friday"⟩)).1 =
      some ⟨2025, 6, 14, 19, 30⟩ ∧
    strftimeA ⟨2025, 6, 14, 19, 30⟩ = specStandardWeekdayName 2025 6 14 ∧
    strftimeA ⟨2025, 6, 14, 19, 30⟩ = "Saturday" ∧
    parseDateTimeSvc (.parsed ⟨some "2025-06-14", some "19:30", "Friday"⟩) =
      parseDateTimeSvc (.parsed ⟨some "2025-06-14", some "19:30", "Saturday"⟩) :=
  ⟨by decide,
   c6_weekday.1 (.parsed ⟨some "2025-06-14", some "19:30", "Friday"⟩)
     ⟨2025, 6, 14, 19, 30⟩ (by decide),
   by decide,
   c6_weekday.2 ⟨some "2025-06-14", some "19:30", "Friday"⟩
     ⟨some "2025-06-14", some "19:30", "Saturday"⟩ rfl rfl⟩

/-! ### Frame lemmas for the orchestrator -/

/-- One pass of `process_state` never touches the duplicate-guard token,
the chat history, or (before the final write-back) the state field. -/
theorem stepPass_frame (o : Oracle) (s : Session) (input : String) (cat : List Restaurant) :
    (∀ s', stepPass o s input cat = .crashAt s' →
      s'.last_processed_input = s.last_processed_input ∧
      s'.chat_history = s.chat_history ∧ s'.state = s.state) ∧
    (∀ s' cat' sv ns resp, stepPass o s input cat = .go s' cat' sv ns resp →
      s'.last_processed_input = s.last_processed_input ∧
      s'.chat_history = s.chat_history ∧ s'.state = s.state) := by
  rcases s with ⟨st, ch, rid, ⟨nm, dtt, ps⟩, fr, lp⟩
  constructor
  · intro s' h
    cases st <;>
      simp only [stepPass, stepPass.suggestionMatched, stepPass.suggestionUnmatched] at h <;>
      (repeat' split at h) <;>
      first
        | exact Pass.noConfusion h
        | (cases h; exact ⟨rfl, rfl, rfl⟩)
  · intro s' cat' sv ns resp h
    cases st <;>
      simp only [stepPass, stepPass.suggestionMatched, stepPass.suggestionUnmatched] at h <;>
      (repeat' split at h) <;>
      first
        | exact Pass.noConfusion h
        | (cases h; exact ⟨rfl, rfl, rfl⟩)

/-- `process_state` (with any fuel) preserves the duplicate-guard token
and the chat history: those are only written by `main`. -/
theorem processState_frame (o : Oracle) (n : Nat) (s : Session) (input : String)
    (cat : List Restaurant) :
    (processState o n s input cat).sess.last_processed_input = s.last_processed_input ∧
    (processState o n s input cat).sess.chat_history = s.chat_history := by
  induction n generalizing s cat with
  | zero => exact ⟨rfl, rfl⟩
  | succ n ih =>
    rcases hp : stepPass o s input cat with s' | ⟨s', cat', sv, ns, resp⟩
    · have hf := (stepPass_frame o s input cat).1 s' hp
      simp only [processState, hp]
      exact ⟨hf.1, hf.2.1⟩
    · have hf := (stepPass_frame o s input cat).2 s' cat' sv ns resp hp
      simp only [processState, hp]
      rcases resp with _ | r <;> rcases ns with _ | stt
      · exact ⟨hf.1, hf.2.1⟩
      · by_cases hne : stt ≠ s.state
        · simp only [if_pos hne]
          have := ih { s' with state := stt } cat'
          simpa using this.imp (fun h => h.trans hf.1) (fun h => h.trans hf.2.1)
        · simp only [if_neg hne]
          exact ⟨hf.1, hf.2.1⟩
      · exact ⟨hf.1, hf.2.1⟩
      · exact ⟨hf.1, hf.2.1⟩

/-- The greeting bootstrap never touches the duplicate-guard token. -/
theorem bootstrap_last (s : Session) :
    (bootstrap s).last_processed_input = s.last_processed_input := by
  unfold bootstrap
  split <;> rfl

/-- Once any message is in the history, the bootstrap is the identity. -/
theorem bootstrap_of_ne_nil {s : Session} (h : s.chat_history ≠ []) :
    bootstrap s = s := by
  unfold bootstrap
  rw [if_neg]
  rintro ⟨-, hc⟩
  exact h hc

/-! ### C4 — duplicate-turn guard -/

/-- A turn whose raw text equals the stored guard token is skipped whole:
no processing, no state change, no commit, no reply. -/
theorem submit_skip (o : Oracle) (f : Nat) (s : Session) (input : String)
    (cat : List Restaurant) (hl : s.last_processed_input = some input)
    (hc : s.chat_history ≠ []) :
    submitTurn o f s input cat = ⟨s, cat, false, false, none⟩ := by
  unfold submitTurn
  rw [bootstrap_of_ne_nil hc]
  rw [if_neg]
  simp [hl]

/-- A fresh turn is processed, records itself in the guard token, and
leaves a non-empty history. -/
theorem processedTurn_fresh (o : Oracle) (f : Nat) (s0 : Session) (input : String)
    (cat : List Restaurant) :
    (processedTurn o f s0 input cat).processed = true ∧
    (processedTurn o f s0 input cat).sess.last_processed_input = some input ∧
    (processedTurn o f s0 input cat).sess.chat_history ≠ [] := by
  unfold processedTurn
  have hfr := processState_frame o f
    { s0 with last_processed_input := some input,
              chat_history := s0.chat_history ++ [(true, input)] } input cat
  rcases hres : (processState o f
      { s0 with last_processed_input := some input,
                chat_history := s0.chat_history ++ [(true, input)] } input cat).res with
    r | _ | _ <;>
    simp [hres, hfr.1, hfr.2]

theorem submit_fresh (o : Oracle) (f : Nat) (s : Session) (input : String)
    (cat : List Restaurant) (hin : input ≠ "")
    (hfresh : s.last_processed_input ≠ some input) :
    (submitTurn o f s input cat).processed = true ∧
    (submitTurn o f s input cat).sess.last_processed_input = some input ∧
    (submitTurn o f s input cat).sess.chat_history ≠ [] := by
  unfold submitTurn
  rw [if_pos ⟨hin, by rw [bootstrap_last]; exact hfresh⟩]
  exact processedTurn_fresh o f (bootstrap s) input cat

/-- C4: with a fresh first submission, submitting the identical raw text
twice in immediate succession processes it exactly once — the second
submission is a complete no-op (same session, same catalog, no commit,
no processing). -/
theorem c4_duplicate_guard (o o2 : Oracle) (f f2 : Nat) (s : Session)
    (input : String) (cat : List Restaurant) (hin : input ≠ "")
    (hfresh : s.last_processed_input ≠ some input) :
    (submitTurn o f s input cat).processed = true ∧
    submitTurn o2 f2 (submitTurn o f s input cat).sess input
        (submitTurn o f s input cat).cat =
      ⟨(submitTurn o f s input cat).sess, (submitTurn o f s input cat).cat,
       false, false, none⟩ := by
  obtain ⟨h1, h2, h3⟩ := submit_fresh o f s input cat hin hfresh
  exact ⟨h1, submit_skip o2 f2 _ input _ h2 h3⟩

/-! ### Concrete oracle stubs and traces -/

/-- A deterministic oracle stub driving a full reservation conversation;
its context-matching fallback resolves "the mystery place" to the id 999,
which no catalog below contains. -/
def sampleOracle : Oracle :=
  { intentReply := fun inp =>
      if inp = "find me a restaurant" then "restaurant_search" else "normal_conversation"
    searchJson := fun _ => .parsed {}
    suggestionText := fun _ _ => "Here are some options."
    detailsText := fun _ _ => "Details about the place."
    dtJson := fun inp =>
      if inp = "June 14 at 7:30 pm" then .parsed ⟨some "2025-06-14", some "19:30", "Friday"⟩
      else .noMatch
    partyJson := fun inp => if inp = "four of us" then .parsed ⟨.int 4⟩ else .noMatch
    convReply := fun _ => "Hello there."
    ctxJson := fun inp _ =>
      if inp = "the mystery place" then .parsed ⟨some 999⟩ else .parsed ⟨none⟩ }

/-- The eight turns that walk the orchestrator from start-up to the
Reservation-Confirmed state with matched restaurant id 999. -/
def cxTrace : List String :=
  ["find me a restaurant", "the mystery place", "book it", "ok", "Asha",
   "June 14 at 7:30 pm", "four of us", "yes"]

/-- Fold a list of turns through `main`, threading session and catalog. -/
def runTrace (o : Oracle) : List String → Session → List Restaurant →
    Session × List Restaurant
  | [], s, cat => (s, cat)
  | i :: rest, s, cat =>
    let out := submitTurn o 5 s i cat
    runTrace o rest out.sess out.cat

/-- The session and catalog after the eight `cxTrace` turns. -/
def cxFinal : Session × List Restaurant :=
  runTrace sampleOracle cxTrace initialSession sampleCat

/-- Witness for C4 at a concrete fresh turn against `sampleOracle`. -/
theorem c4_duplicate_guard_witness :
    ("hi" : String) ≠ "" ∧ initialSession.last_processed_input ≠ some "hi" ∧
    (submitTurn sampleOracle 5 initialSession "hi" sampleCat).processed = true ∧
    submitTurn sampleOracle 3 (submitTurn sampleOracle 5 initialSession "hi" sampleCat).sess
        "hi" (submitTurn sampleOracle 5 initialSession "hi" sampleCat).cat =
      ⟨(submitTurn sampleOracle 5 initialSession "hi" sampleCat).sess,
       (submitTurn sampleOracle 5 initialSession "hi" sampleCat).cat, false, false, none⟩ :=
  ⟨by decide, by decide,
   (c4_duplicate_guard sampleOracle sampleOracle 5 3 initialSession "hi" sampleCat
     (by decide) (by decide)).1,
   (c4_duplicate_guard sampleOracle sampleOracle 5 3 initialSession "hi" sampleCat
     (by decide) (by decide)).2⟩

/-! ### C1 — commit iff draft complete and id non-null: refuted as an "iff" -/

/-- Counterexample to C1 as stated: after the eight reachable `cxTrace`
turns the session sits in Reservation-Confirmed with all three draft
fields non-absent and the non-null matched id 999 — yet the next turn's
invocation of the reservation transaction appends nothing (id 999 is not
in the catalog), commits nothing, and branches to Error-Handling.  The
"if" direction of the claimed biconditional fails. -/
theorem c1_counterexample :
    cxFinal.1.state = StName.RESERVATION_CONFIRMED ∧
    cxFinal.1.reservation_info.name.isSome = true ∧
    cxFinal.1.reservation_info.datetime.isSome = true ∧
    cxFinal.1.reservation_info.party_size.isSome = true ∧
    cxFinal.1.current_restaurant_id = some 999 ∧
    (∀ r ∈ cxFinal.2, r.id ≠ 999) ∧
    (processState sampleOracle 5 cxFinal.1 "go ahead" cxFinal.2).saved = false ∧
    (processState sampleOracle 5 cxFinal.1 "go ahead" cxFinal.2).cat = cxFinal.2 ∧
    (processState sampleOracle 5 cxFinal.1 "go ahead" cxFinal.2).sess.state =
      StName.ERROR_HANDLING := by
  decide

def draftComplete (s : Session) : Prop :=
  s.reservation_info.name.isSome = true ∧ s.reservation_info.datetime.isSome = true ∧
  s.reservation_info.party_size.isSome = true

def SessInv (s : Session) : Prop :=
  (s.state = .RESTAURANT_DETAILS → s.current_restaurant_id.isSome = true) ∧
  (s.state = .MAKE_RESERVATION → s.current_restaurant_id.isSome = true) ∧
  (s.state = .NAME_PROMPT → s.current_restaurant_id.isSome = true) ∧
  (s.state = .DATETIME_PROMPT → s.current_restaurant_id.isSome = true ∧
    s.reservation_info.name.isSome = true) ∧
  (s.state = .PARTY_PROMPT → s.current_restaurant_id.isSome = true ∧
    s.reservation_info.name.isSome = true ∧ s.reservation_info.datetime.isSome = true) ∧
  (s.state = .CONFIRM_RESERVATION → s.current_restaurant_id.isSome = true ∧ draftComplete s) ∧
  (s.state = .RESERVATION_CONFIRMED → s.current_restaurant_id.isSome = true ∧ draftComplete s) ∧
  (s.state = .ERROR_HANDLING → s.current_restaurant_id.isSome = true) ∧
  (s.state = .RESERVATION_RETRY → s.current_restaurant_id.isSome = true)

theorem truthyId_iff (r : Option Nat) :
    truthyId r = true ↔ ∃ n, r = some n ∧ n ≠ 0 := by
  cases r <;> simp [truthyId]

theorem stepPass_inv (o : Oracle) (s : Session) (input : String) (cat : List Restaurant)
    (hInv : SessInv s) :
    (∀ s', stepPass o s input cat = .crashAt s' → SessInv s') ∧
    (∀ s' cat' sv ns resp, stepPass o s input cat = .go s' cat' sv ns resp →
      SessInv s' ∧ ∀ st, ns = some st → SessInv { s' with state := st }) := by
  rcases s with ⟨st0, ch, rid, ⟨nm, dtt, ps⟩, fr, lp⟩
  constructor
  · intro s' h
    cases st0 <;>
      simp only [stepPass, stepPass.suggestionMatched, stepPass.suggestionUnmatched] at h <;>
      (repeat' split at h) <;>
      first
        | exact Pass.noConfusion h
        | (cases h; simp_all [SessInv, draftComplete, truthyId_iff])
  · intro s' cat' sv ns resp h
    cases st0 <;>
      simp only [stepPass, stepPass.suggestionMatched, stepPass.suggestionUnmatched] at h <;>
      (repeat' split at h) <;>
      first
        | exact Pass.noConfusion h
        | (cases h; simp_all [SessInv, draftComplete, truthyId_iff];
           try (obtain ⟨n, hn, -⟩ := ‹∃ n, rid = some n ∧ ¬n = 0›; simp [hn]))

theorem processState_inv (o : Oracle) (n : Nat) :
    ∀ (s : Session) (input : String) (cat : List Restaurant), SessInv s →
      SessInv (processState o n s input cat).sess := by
  induction n with
  | zero => intro s input cat h; exact h
  | succ n ih =>
    intro s input cat h
    rcases hp : stepPass o s input cat with s' | ⟨s', cat', sv, ns, resp⟩
    · simp only [processState, hp]
      exact (stepPass_inv o s input cat h).1 s' hp
    · have hgo := (stepPass_inv o s input cat h).2 s' cat' sv ns resp hp
      simp only [processState, hp]
      rcases resp with _ | r <;> rcases ns with _ | stt
      · exact hgo.1
      · by_cases hne : stt ≠ s.state
        · simp only [if_pos hne]
          exact ih _ input cat' (hgo.2 stt rfl)
        · simp only [if_neg hne]
          exact hgo.2 stt rfl
      · exact hgo.1
      · exact hgo.2 stt rfl

theorem bootstrap_inv {s : Session} (h : SessInv s) : SessInv (bootstrap s) := by
  unfold bootstrap
  split
  · simp [SessInv]
  · exact h

theorem submit_inv (o : Oracle) (fuel : Nat) (s : Session) (input : String)
    (cat : List Restaurant) (h : SessInv s) :
    SessInv (submitTurn o fuel s input cat).sess := by
  simp only [submitTurn]
  split
  · unfold processedTurn
    have h1 : SessInv
        { bootstrap s with last_processed_input := some input,
                           chat_history := (bootstrap s).chat_history ++ [(true, input)] } := by
      have hb := bootstrap_inv h
      simp_all [SessInv, draftComplete]
    have h2 := processState_inv o fuel _ input cat h1
    rcases hres : (processState o fuel
        { bootstrap s with last_processed_input := some input,
                           chat_history := (bootstrap s).chat_history ++ [(true, input)] }
        input cat).res with
      r | _ | _ <;> simp only [hres] <;> simp_all [SessInv, draftComplete]
  · exact bootstrap_inv h

theorem reach_inv {s : Session} (h : Reach s) : SessInv s := by
  induction h with
  | init => simp [SessInv, initialSession]
  | step s o fuel input cat hs ih => exact submit_inv o fuel s input cat ih

theorem addReservation_not_found (cat : List Restaurant) (rid? : Option Nat)
    (nm : Option String) (dt : Option DateTime) (ps : Option Int)
    (h : ∀ r ∈ cat, some r.id ≠ rid?) :
    addReservation cat rid? nm dt ps = .ok (false, none, cat, false) := by
  induction cat with
  | nil => rfl
  | cons x rest ih =>
    have hx : ¬ (some x.id = rid?) := h x (List.mem_cons_self x rest)
    have := ih (fun r hr => h r (List.mem_cons_of_mem x hr))
    simp [addReservation, hx, this]

theorem addReservation_dichotomy (cat : List Restaurant) (rid? : Option Nat)
    (nm : Option String) (d : DateTime) (ps : Option Int) :
    ((∃ r ∈ cat, some r.id = rid?) ∧ ∃ resv cat',
        addReservation cat rid? nm (some d) ps = .ok (true, some resv, cat', true)) ∨
    ((∀ r ∈ cat, some r.id ≠ rid?) ∧
        addReservation cat rid? nm (some d) ps = .ok (false, none, cat, false)) := by
  induction cat with
  | nil => exact Or.inr ⟨by simp, rfl⟩
  | cons x rest ih =>
    by_cases hx : some x.id = rid?
    · refine Or.inl ⟨⟨x, List.mem_cons_self _ _, hx⟩,
        ⟨x.reservations.length + 1, nm, fmtShort d, ps, "confirmed"⟩,
        { x with reservations := x.reservations ++
            [⟨x.reservations.length + 1, nm, fmtShort d, ps, "confirmed"⟩] } :: rest,
        by simp [addReservation, hx]⟩
    · rcases ih with ⟨⟨r, hr, hrid⟩, resv, cat', hadd⟩ | ⟨hall, hadd⟩
      · exact Or.inl ⟨⟨r, List.mem_cons_of_mem _ hr, hrid⟩, resv, x :: cat',
          by simp [addReservation, hx, hadd]⟩
      · refine Or.inr ⟨?_, by simp [addReservation, hx, hadd]⟩
        intro r hr
        rcases List.mem_cons.mp hr with rfl | hr'
        · exact hx
        · exact hall r hr'

theorem rc_saved_iff (o : Oracle) (n : Nat) (s : Session) (input : String)
    (cat : List Restaurant) (hst : s.state = .RESERVATION_CONFIRMED)
    (hdt : s.reservation_info.datetime.isSome = true) :
    ((processState o (n + 1) s input cat).saved = true ↔
      ∃ r ∈ cat, some r.id = s.current_restaurant_id) := by
  rcases s with ⟨st, ch, rid, ⟨nm, dtt, ps⟩, fr, lp⟩
  simp only at hst hdt ⊢
  subst hst
  obtain ⟨d, hd⟩ := Option.isSome_iff_exists.mp hdt
  subst hd
  rcases addReservation_dichotomy cat rid nm d ps with
    ⟨⟨r, hr, hrid⟩, resv, cat', hadd⟩ | ⟨hall, hadd⟩
  · simp only [processState, stepPass, hadd]
    simp only [eq_self_iff_true, true_iff]
    exact ⟨r, hr, hrid⟩
  · simp only [processState, stepPass, hadd]
    constructor
    · intro hfalse
      exact absurd hfalse (by simp)
    · rintro ⟨r, hr, hrid⟩
      exact absurd hrid (hall r hr)

/-- C1 (amended): at every reachable Reservation-Confirmed state the
three draft fields are non-absent and the matched restaurant id is
non-null (so a committed reservation implies those conditions); the
transaction invoked there appends and persists a record IF AND ONLY IF,
in addition, the matched id is actually present in the catalog — without
the catalog-membership condition the claimed biconditional is false. -/
theorem c1_commit_characterization :
    (∀ s : Session, Reach s → s.state = .RESERVATION_CONFIRMED →
      draftComplete s ∧ s.current_restaurant_id.isSome = true) ∧
    (∀ (o : Oracle) (n : Nat) (s : Session) (input : String) (cat : List Restaurant),
      Reach s → s.state = .RESERVATION_CONFIRMED →
      ((processState o (n + 1) s input cat).saved = true ↔
        ∃ r ∈ cat, some r.id = s.current_restaurant_id)) := by
  have hpart1 : ∀ s : Session, Reach s → s.state = .RESERVATION_CONFIRMED →
      draftComplete s ∧ s.current_restaurant_id.isSome = true := by
    intro s hs hst
    have h := reach_inv hs
    exact ⟨(h.2.2.2.2.2.2.1 hst).2, (h.2.2.2.2.2.2.1 hst).1⟩
  refine ⟨hpart1, ?_⟩
  intro o n s input cat hs hst
  exact rc_saved_iff o n s input cat hst (hpart1 s hs hst).1.2.1

/-- The reachable session after the eight `cxTrace` turns, built turn by
turn (the catalog is unchanged throughout: no commit happens). -/
def wSess : Nat → Session
  | 0 => initialSession
  | k + 1 => (submitTurn sampleOracle 5 (wSess k) (cxTrace.getD k "") sampleCat).sess

theorem reach_wSess8 : Reach (wSess 8) :=
  Reach.step _ _ _ _ _ (Reach.step _ _ _ _ _ (Reach.step _ _ _ _ _
    (Reach.step _ _ _ _ _ (Reach.step _ _ _ _ _ (Reach.step _ _ _ _ _
      (Reach.step _ _ _ _ _ (Reach.step _ _ _ _ _ Reach.init)))))))

/-- Witness for C1 (amended) at the concrete reachable session `wSess 8`
(state Reservation-Confirmed, matched id 999, catalog without id 999). -/
theorem c1_commit_characterization_witness :
    (draftComplete (wSess 8) ∧ (wSess 8).current_restaurant_id.isSome = true) ∧
    ((processState sampleOracle 1 (wSess 8) "go ahead" sampleCat).saved = true ↔
      ∃ r ∈ sampleCat, some r.id = (wSess 8).current_restaurant_id) :=
  ⟨c1_commit_characterization.1 (wSess 8) reach_wSess8 (by decide),
   c1_commit_characterization.2 sampleOracle 0 (wSess 8) "go ahead" sampleCat
     reach_wSess8 (by decide)⟩

/-! ### C9 — the draft is NOT reset after a successful commit -/

/-- A session sitting at Reservation-Confirmed with a full draft and the
matched id 1, which `sampleCat` does contain. -/
def commitSession : Session :=
  { initialSession with
      state := StName.RESERVATION_CONFIRMED
      current_restaurant_id := some 1
      reservation_info :=
        { name := some "Asha", datetime := some ⟨2025, 6, 14, 19, 30⟩, party_size := some 4 } }

/-- Counterexample to C9 as stated: the commit turn at `commitSession`
succeeds (`saved = true`, a record is appended), yet the draft fields are
NOT reset — they still hold name, date-time and party size afterwards,
and the following turn is processed with them still in place. -/
theorem c9_counterexample :
    (processState sampleOracle 5 commitSession "go ahead" sampleCat).saved = true ∧
    (processState sampleOracle 5 commitSession "go ahead" sampleCat).sess.reservation_info =
      commitSession.reservation_info ∧
    commitSession.reservation_info.name = some "Asha" ∧
    (processState sampleOracle 5
        (processState sampleOracle 5 commitSession "go ahead" sampleCat).sess
        "what else" sampleCat).sess.reservation_info.name = some "Asha" := by
  decide

/-- C9 (amended): after a successful reservation commit the session's
ReservationDraft is NOT discarded — the commit turn leaves all three
draft fields exactly as they were (they are only ever overwritten one at
a time by a later pass through the prompts). -/
theorem c9_draft_not_reset (o : Oracle) (n : Nat) (s : Session) (input : String)
    (cat : List Restaurant) (hst : s.state = .RESERVATION_CONFIRMED)
    (hsv : (processState o (n + 1) s input cat).saved = true) :
    (processState o (n + 1) s input cat).sess.reservation_info = s.reservation_info := by
  rcases s with ⟨st, ch, rid, ⟨nm, dtt, ps⟩, fr, lp⟩
  simp only at hst
  subst hst
  rcases hadd : addReservation cat rid nm dtt ps with ⟨⟩ | ⟨b, rv, catx, sv⟩
  · simp [processState, stepPass, hadd] at hsv
  · rcases b with _ | _ <;> rcases dtt with _ | d <;>
      simp_all [processState, stepPass]

/-- Witness for C9 (amended), applying it at the concrete commit turn. -/
theorem c9_draft_not_reset_witness :
    commitSession.state = StName.RESERVATION_CONFIRMED ∧
    (processState sampleOracle 1 commitSession "go ahead" sampleCat).saved = true ∧
    (processState sampleOracle 1 commitSession "go ahead" sampleCat).sess.reservation_info =
      commitSession.reservation_info :=
  ⟨by decide, by decide,
   c9_draft_not_reset sampleOracle 0 commitSession "go ahead" sampleCat
     (by decide) (by decide)⟩

/-! ### C10 — the matched id is frozen along the failure-recovery path -/

/-- The states of the failure-recovery path
Error-Handling → Reservation-Retry → Make-Reservation → prompts →
Confirm → Reservation-Confirmed. -/
def retryPathStates : List StName :=
  [.ERROR_HANDLING, .RESERVATION_RETRY, .MAKE_RESERVATION, .NAME_PROMPT,
   .DATETIME_PROMPT, .PARTY_PROMPT, .CONFIRM_RESERVATION, .RESERVATION_CONFIRMED]

/-- One pass from a failure-recovery-path state never touches the matched
id, and (crashes apart) always produces a response — those states never
re-dispatch. -/
theorem stepPass_retry (o : Oracle) (s : Session) (input : String)
    (cat : List Restaurant) (hst : s.state ∈ retryPathStates) :
    (∀ s', stepPass o s input cat = .crashAt s' →
      s'.current_restaurant_id = s.current_restaurant_id) ∧
    (∀ s' cat' sv ns resp, stepPass o s input cat = .go s' cat' sv ns resp →
      s'.current_restaurant_id = s.current_restaurant_id ∧ resp.isSome = true) := by
  rcases s with ⟨st, ch, rid, ⟨nm, dtt, ps⟩, fr, lp⟩
  simp only [retryPathStates, List.mem_cons, List.mem_singleton] at hst
  constructor
  · intro s' h
    rcases hst with h1 | h1 | h1 | h1 | h1 | h1 | h1 | h1 | h1 <;>
      first
        | exact absurd h1 (by simp)
        | (subst h1 <;>
           simp only [stepPass] at h <;>
           (repeat' split at h) <;>
           first
             | exact Pass.noConfusion h
             | (cases h; rfl))
  · intro s' cat' sv ns resp h
    rcases hst with h1 | h1 | h1 | h1 | h1 | h1 | h1 | h1 | h1 <;>
      first
        | exact absurd h1 (by simp)
        | (subst h1 <;>
           simp only [stepPass] at h <;>
           (repeat' split at h) <;>
           first
             | exact Pass.noConfusion h
             | (cases h; exact ⟨rfl, rfl⟩))

/-- C10: processing any turn from a failure-recovery-path state never
modifies or clears the matched restaurant id; consequently, at
Reservation-Confirmed with a matched id absent from the catalog, the
retried commit fails again — nothing saved, catalog unchanged, back to
Error-Handling. -/
theorem c10_retry_frame (o : Oracle) (n : Nat) (s : Session) (input : String)
    (cat : List Restaurant) (hst : s.state ∈ retryPathStates) :
    (processState o (n + 1) s input cat).sess.current_restaurant_id =
      s.current_restaurant_id ∧
    (s.state = .RESERVATION_CONFIRMED →
      (∀ r ∈ cat, some r.id ≠ s.current_restaurant_id) →
      (processState o (n + 1) s input cat).saved = false ∧
      (processState o (n + 1) s input cat).cat = cat ∧
      (processState o (n + 1) s input cat).sess.state = .ERROR_HANDLING) := by
  constructor
  · rcases hp : stepPass o s input cat with s' | ⟨s', cat', sv, ns, resp⟩
    · simp only [processState, hp]
      exact (stepPass_retry o s input cat hst).1 s' hp
    · obtain ⟨hid, hresp⟩ := (stepPass_retry o s input cat hst).2 s' cat' sv ns resp hp
      obtain ⟨r, hr⟩ := Option.isSome_iff_exists.mp hresp
      subst hr
      simp only [processState, hp]
      rcases ns with _ | stt <;> simpa using hid
  · intro hrc hall
    rcases s with ⟨st, ch, rid, ⟨nm, dtt, ps⟩, fr, lp⟩
    simp only [Session.state] at hrc
    subst hrc
    have hadd := addReservation_not_found cat rid nm dtt ps hall
    simp [processState, stepPass, hadd]

/-- Witness for C10 at a concrete retry scenario: the session sits at
Reservation-Confirmed with matched id 999, absent from `sampleCat`. -/
theorem c10_retry_frame_witness :
    (wSess 8).state ∈ retryPathStates ∧
    (processState sampleOracle 1 (wSess 8) "go ahead" sampleCat).sess.current_restaurant_id =
      (wSess 8).current_restaurant_id ∧
    ((processState sampleOracle 1 (wSess 8) "go ahead" sampleCat).saved = false ∧
     (processState sampleOracle 1 (wSess 8) "go ahead" sampleCat).cat = sampleCat ∧
     (processState sampleOracle 1 (wSess 8) "go ahead" sampleCat).sess.state =
       .ERROR_HANDLING) :=
  ⟨by decide,
   (c10_retry_frame sampleOracle 0 (wSess 8) "go ahead" sampleCat (by decide)).1,
   (c10_retry_frame sampleOracle 0 (wSess 8) "go ahead" sampleCat (by decide)).2
     (by decide) (by decide)⟩

/-! ### C7 — termination of one physical turn: refuted in general -/

/-- An oracle stub that always classifies the input as `details`. -/
def cycleOracle : Oracle :=
  { intentReply := fun _ => "details"
    searchJson := fun _ => .parsed {}
    suggestionText := fun _ _ => "s"
    detailsText := fun _ _ => "d"
    dtJson := fun _ => .noMatch
    partyJson := fun _ => .noMatch
    convReply := fun _ => "c"
    ctxJson := fun _ _ => .parsed ⟨none⟩ }

/-- An intent-detection session with a matched restaurant. -/
def cycleSession : Session :=
  { initialSession with state := StName.INTENT_DETECTION, current_restaurant_id := some 5 }

/-- The physical turn at this configuration exhausts every fuel bound:
the re-entrant recursion never returns. -/
def DivergesAt (o : Oracle) (s : Session) (input : String) (cat : List Restaurant) : Prop :=
  ∀ n, (processState o n s input cat).res = .fuelOut

/-- Counterexample to C7 as stated: with the deterministic oracle stub
that classifies "tell me more" as `details` while a restaurant is
matched and the input has no booking keyword, the re-dispatch cycle
Intent-Detection → Restaurant-Details → Intent-Detection → ... recurses
forever — the turn never terminates with a reply. -/
theorem c7_counterexample : DivergesAt cycleOracle cycleSession "tell me more" [] := by
  have key : ∀ m,
      (processState cycleOracle m cycleSession "tell me more" []).res = .fuelOut ∧
      (processState cycleOracle m { cycleSession with state := .RESTAURANT_DETAILS }
        "tell me more" []).res = .fuelOut := by
    intro m
    induction m with
    | zero => exact ⟨rfl, rfl⟩
    | succ m ih =>
      refine ⟨?_, ?_⟩
      · have hstep : processState cycleOracle (m + 1) cycleSession "tell me more" [] =
            processState cycleOracle m { cycleSession with state := .RESTAURANT_DETAILS }
              "tell me more" [] := rfl
        rw [hstep]
        exact ih.2
      · have hstep : processState cycleOracle (m + 1)
              { cycleSession with state := .RESTAURANT_DETAILS } "tell me more" [] =
            processState cycleOracle m cycleSession "tell me more" [] := rfl
        rw [hstep]
        exact ih.1
  exact fun n => (key n).1

/-- The final `response or default` is never the empty string. -/
theorem finalizeReply_ne (r? : Option String) : finalizeReply r? ≠ "" := by
  rcases r? with _ | r
  · simp [finalizeReply, defaultReply]
  · by_cases hr : r = "" <;> simp [finalizeReply, hr, defaultReply]

/-- A turn result is acceptable when it is not fuel exhaustion and any
reply it carries is non-empty (a crash is termination, not a reply). -/
def resOK (t : Turn) : Prop :=
  match t.res with
  | .reply r => r ≠ ""
  | .crash => True
  | .fuelOut => False

/-- Fuel-step principle: one `process_state` pass terminates acceptably
provided every reply-less re-dispatch it can take does. -/
theorem stepOK (o : Oracle) (n : Nat) (s : Session) (input : String)
    (cat : List Restaurant)
    (hrec : ∀ s' cat' sv st, stepPass o s input cat = .go s' cat' sv (some st) none →
      st ≠ s.state → resOK (processState o n { s' with state := st } input cat')) :
    resOK (processState o (n + 1) s input cat) := by
  rcases hp : stepPass o s input cat with s' | ⟨s', cat', sv, ns, resp⟩
  · simp [processState, hp, resOK]
  · simp only [processState, hp]
    rcases resp with _ | r <;> rcases ns with _ | stt
    · simpa [resOK] using finalizeReply_ne none
    · by_cases hne : stt ≠ s.state
      · simp only [if_pos hne]
        exact hrec s' cat' sv stt hp hne
      · simp only [if_neg hne]
        simpa [resOK] using finalizeReply_ne none
    · simpa [resOK] using finalizeReply_ne (some r)
    · simpa [resOK] using finalizeReply_ne (some r)

/-- The find-restaurant state always replies on the same pass. -/
theorem findOK (o : Oracle) (n : Nat) (s : Session) (input : String)
    (cat : List Restaurant) (hst : s.state = .FIND_RESTAURANT) :
    resOK (processState o (n + 1) s input cat) := by
  apply stepOK
  intro s' cat' sv st heq hne
  rcases s with ⟨st0, ch, rid, ⟨nm, dtt, ps⟩, fr, lp⟩
  simp only at hst
  subst hst
  simp only [stepPass] at heq
  cases heq

/-- The details state replies on the same pass when the input carries
booking language. -/
theorem detailsBookOK (o : Oracle) (n : Nat) (s : Session) (input : String)
    (cat : List Restaurant) (hst : s.state = .RESTAURANT_DETAILS)
    (hb : hasBooking input = true) :
    resOK (processState o (n + 1) s input cat) := by
  apply stepOK
  intro s' cat' sv st heq hne
  rcases s with ⟨st0, ch, rid, ⟨nm, dtt, ps⟩, fr, lp⟩
  simp only at hst
  subst hst
  simp only [stepPass, hb] at heq
  cases heq

/-- From intent detection the turn terminates acceptably within two more
dispatch levels, unless the classified intent is `details` with a matched
restaurant and no booking language. -/
theorem idOK (o : Oracle) (n : Nat) (s : Session) (input : String)
    (cat : List Restaurant) (hst : s.state = .INTENT_DETECTION)
    (h : ¬ (detectIntent o input = .details ∧
            truthyId s.current_restaurant_id = true ∧ hasBooking input = false)) :
    resOK (processState o (n + 2) s input cat) := by
  apply stepOK
  intro s' cat' sv st heq hne
  rcases s with ⟨st0, ch, rid, ⟨nm, dtt, ps⟩, fr, lp⟩
  simp only at hst
  subst hst
  rcases hi : detectIntent o input with _ | _ | _ | _ <;>
    simp only [stepPass, hi] at heq
  · -- search → Find-Restaurant, which always replies
    cases heq
    exact findOK o n _ input cat rfl
  · -- reservation: both branches reply
    split at heq <;> cases heq
  · -- details: with a matched id the input must carry booking language
    split at heq
    · cases heq
      rename_i htr
      have hb : hasBooking input = true := by
        by_cases hb' : hasBooking input = true
        · exact hb'
        · exact absurd ⟨hi, htr, by simpa using hb'⟩ h
      exact detailsBookOK o n _ input cat rfl hb
    · cases heq
  · cases heq

/-- Acceptable termination of one physical turn, by case analysis on the
starting state. -/
theorem turn_resOK (o : Oracle) (s : Session) (input : String)
    (cat : List Restaurant)
    (h : ¬ (detectIntent o input = .details ∧
            truthyId s.current_restaurant_id = true ∧ hasBooking input = false)) :
    resOK (processState o 5 s input cat) := by
  rcases s with ⟨st0, ch, rid, ⟨nm, dtt, ps⟩, fr, lp⟩
  cases st0
  all_goals first
    | exact idOK o 3 _ input cat rfl h
    | exact findOK o 4 _ input cat rfl
    | (apply stepOK
       intro s' c' sv st heq hne
       simp only [stepPass, stepPass.suggestionMatched, stepPass.suggestionUnmatched] at heq
       (repeat' split at heq) <;>
         first
           | exact Pass.noConfusion heq
           | (cases heq; exact idOK o 2 _ input cat rfl h)
           | (cases heq))

/-- C7 (amended): one physical turn of the orchestrator — including the
same-turn re-entrant recursion — terminates within the bounded dispatch
depth 5 whenever the intent classifier does not label the input `details`
while a restaurant is matched and the input lacks the booking keywords;
when it terminates with a reply, the reply is non-empty.  (Without that
proviso the Restaurant-Details ↔ Intent-Detection re-dispatch recurses
forever, and a crash branch may also end a turn without a reply.) -/
theorem c7_amended_termination (o : Oracle) (s : Session) (input : String)
    (cat : List Restaurant)
    (h : ¬ (detectIntent o input = .details ∧
            truthyId s.current_restaurant_id = true ∧ hasBooking input = false)) :
    (processState o 5 s input cat).res ≠ .fuelOut ∧
    ∀ r, (processState o 5 s input cat).res = .reply r → r ≠ "" := by
  have hok := turn_resOK o s input cat h
  unfold resOK at hok
  constructor
  · intro hf
    rw [hf] at hok
    exact hok
  · intro r hr
    rw [hr] at hok
    exact hok

/-- Witness for C7 (amended) at a concrete configuration: the oracle
classifies "hello" as normal conversation, so the turn terminates. -/
theorem c7_amended_termination_witness :
    ¬ (detectIntent sampleOracle "hello" = .details ∧
       truthyId cycleSession.current_restaurant_id = true ∧
       hasBooking "hello" = false) ∧
    (processState sampleOracle 5 cycleSession "hello" sampleCat).res ≠ .fuelOut ∧
    (∀ r, (processState sampleOracle 5 cycleSession "hello" sampleCat).res = .reply r →
      r ≠ "") :=
  ⟨by decide,
   (c7_amended_termination sampleOracle cycleSession "hello" sampleCat (by decide)).1,
   (c7_amended_termination sampleOracle cycleSession "hello" sampleCat (by decide)).2⟩
